import Mathlib

/-!
Verification of the SatGeovn shapefile service: a shallow embedding of the
Express route handlers (shapefile upload / list / get / update / delete and
the GEE export route) together with a transactional semantics for the SQL
statements they issue, and theorems settling the specification claims.
-/

namespace SatGeovn

/-! ## Kernel-computable string helpers

The JS code uses `toUpperCase`, `toLowerCase`, `endsWith` and `trim`.
The embeddings below work on the character list of the string so that
concrete instances evaluate inside the kernel. -/

/-- `s.toUpperCase()` -/
def strUpper (s : String) : String := String.mk (s.data.map Char.toUpper)

/-- `s.toLowerCase()` -/
def strLower (s : String) : String := String.mk (s.data.map Char.toLower)

/-- `s.endsWith(suf)` -/
def strEndsWith (s suf : String) : Bool :=
  List.isPrefixOf suf.data.reverse s.data.reverse

/-- `s.trim()` -/
def strTrim (s : String) : String :=
  String.mk (((s.data.dropWhile Char.isWhitespace).reverse.dropWhile Char.isWhitespace).reverse)

/-! ## JavaScript values

Request bodies are JSON, and the handlers branch on JS truthiness
(`if (!name && !metadata)`, `if (metadata)`, ...).  `JsVal` models the
values that can appear in a body field; a JSON object is carried by its
`JSON.stringify` image, which is all the handlers ever do with one. -/

inductive JsVal where
  | null
  | undef
  | bool (b : Bool)
  | num (n : Int)
  | str (s : String)
  | obj (stringified : String)
deriving DecidableEq, Repr

/-- JS truthiness of a `JsVal` (`NaN` is not modelled; an object is always
truthy). -/
def JsVal.truthy : JsVal → Bool
  | .null => false
  | .undef => false
  | .bool b => b
  | .num n => !(n == 0)
  | .str s => !(s == "")
  | .obj _ => true

/-- `JSON.stringify` on a `JsVal` (an object evaluates to the serialized
form it carries). -/
def JsVal.stringify : JsVal → String
  | .null => "null"
  | .undef => "undefined"
  | .bool true => "true"
  | .bool false => "false"
  | .num n => toString n
  | .str s => "\x22" ++ s ++ "\x22"
  | .obj s => s

/-! ## Data model: the `shapefiles` table

One row of the `shapefiles` table (see `initTable`).  Geometry values are
carried by their GeoJSON serialization: the store's single canonical
serialization path (`ST_AsGeoJSON` / `ST_GeomFromGeoJSON`) makes the
GeoJSON text a faithful carrier for a geometry column.  Timestamps are
abstract instants (`Nat`). -/

structure Row where
  id : Nat
  name : String
  geom : String
  bbox : Option String
  metadata : Option String
  created_at : Nat
  updated_at : Nat
deriving DecidableEq, Repr

/-- The visible database state: the rows of `shapefiles` plus the next
value of the `id` `SERIAL` sequence. -/
structure DbState where
  rows : List Row
  nextId : Nat
deriving DecidableEq, Repr

/-! ## Upload request ingredients -/

/-- One multer-saved file of the multipart upload. -/
structure UploadedFile where
  originalname : String
  path : String
deriving DecidableEq, Repr

/-- One record produced by the shapefile parser: a GeoJSON geometry (or
null/absent) and the attribute properties (or null), both carried
serialized. -/
structure Feature where
  geometry : Option String
  properties : Option String
deriving DecidableEq, Repr

/-- `req.files.find(f => f.originalname.toLowerCase().endsWith('.shp'))` -/
def findShp (files : List UploadedFile) : Option UploadedFile :=
  files.find? (fun f => strEndsWith (strLower f.originalname) ".shp")

/-- The read loop keeps exactly the records whose `geometry` is truthy
(`if (result.value.geometry) features.push(result.value)`). -/
def retainedFeatures (parsed : List Feature) : List Feature :=
  parsed.filter (fun f => f.geometry.isSome)

/-! ## SQL transaction semantics

The upload handler issues `BEGIN`, `DELETE`, one envelope `SELECT` and one
`INSERT` per feature, then `COMMIT` (or `ROLLBACK` from its catch block).
`TxState` is the standard transaction semantics: statements between
`BEGIN` and `COMMIT` act on a working snapshot which is published only by
`COMMIT` and discarded by `ROLLBACK`. -/

inductive SqlOp where
  | begin
  | deleteByName (name : String)
  | selectEnvelope (geojson : String)
  | insert (name geom : String) (metadata : Option String) (bbox : String)
  | commit
  | rollback
deriving DecidableEq, Repr

/-- `DELETE FROM shapefiles WHERE name = $1` on a row list. -/
def deleteRowsNamed (name : String) (rows : List Row) : List Row :=
  rows.filter (fun r => !(r.name == name))

/-- `INSERT INTO shapefiles (name, geom, metadata, bbox) VALUES (...)`
on a database state: appends a row with the next serial id, `created_at`
and `updated_at` defaulted to `NOW()`. -/
def insertRow (now : Nat) (name geom : String) (metadata : Option String)
    (bbox : String) (s : DbState) : DbState :=
  { rows := s.rows ++
      [{ id := s.nextId, name := name, geom := geom, bbox := some bbox,
         metadata := metadata, created_at := now, updated_at := now }],
    nextId := s.nextId + 1 }

/-- A connection's view: the committed state plus the in-transaction
working snapshot when a transaction is open. -/
structure TxState where
  committed : DbState
  working : Option DbState
deriving DecidableEq, Repr

/-- Effect of one successfully executed statement. -/
def applyOp (now : Nat) (t : TxState) (op : SqlOp) : TxState :=
  match op with
  | .begin => { t with working := some t.committed }
  | .deleteByName n =>
      match t.working with
      | some w => { t with working := some { w with rows := deleteRowsNamed n w.rows } }
      | none => { t with committed := { t.committed with rows := deleteRowsNamed n t.committed.rows } }
  | .selectEnvelope _ => t
  | .insert n g md b =>
      match t.working with
      | some w => { t with working := some (insertRow now n g md b w) }
      | none => { t with committed := insertRow now n g md b t.committed }
  | .commit =>
      match t.working with
      | some w => { committed := w, working := none }
      | none => t
  | .rollback => { t with working := none }

/-- Effect of a statement sequence. -/
def applyOps (now : Nat) (t : TxState) (ops : List SqlOp) : TxState :=
  ops.foldl (applyOp now) t

/-- The two statements the upload loop issues for one feature: the
envelope computation (`SELECT ST_Envelope(ST_GeomFromGeoJSON($1))`,
evaluated by the store's geometry engine `env`) followed by the
`INSERT` that stores the serialized geometry, the serialized properties
(or null) and the computed envelope. -/
def featureOps (env : String → String) (name : String) (f : Feature) : List SqlOp :=
  [.selectEnvelope (f.geometry.getD ""),
   .insert name (f.geometry.getD "") f.properties (env (f.geometry.getD ""))]

/-- The statement sequence of a fully successful upload transaction:
`BEGIN`, the delete of rows with the dataset name, the per-feature
pairs, `COMMIT`. -/
def txOps (env : String → String) (name : String) (feats : List Feature) : List SqlOp :=
  .begin :: .deleteByName name :: (feats.flatMap (featureOps env name) ++ [.commit])

/-- Execute the upload transaction against committed state `s`.
`failAt = some k` means the `k`-th statement of the sequence raises: the
statements before it executed, the failing one has no effect, and the
handler's catch block issues `ROLLBACK` (mirroring
`catch (dbError) { await client.query('ROLLBACK'); throw dbError }`).
Returns the resulting committed state and whether the transaction
committed. -/
def uploadTxExec (s : DbState) (env : String → String) (name : String)
    (feats : List Feature) (now : Nat) (failAt : Option Nat) : DbState × Bool :=
  let ops := txOps env name feats
  match failAt with
  | some k =>
      if k < ops.length then
        ((applyOps now { committed := s, working := none } (ops.take k ++ [.rollback])).committed, false)
      else
        ((applyOps now { committed := s, working := none } ops).committed, true)
  | none => ((applyOps now { committed := s, working := none } ops).committed, true)

/-- The row the upload inserts for one feature. -/
def mkUploadRow (env : String → String) (name : String) (now : Nat)
    (id : Nat) (f : Feature) : Row :=
  { id := id, name := name, geom := f.geometry.getD "",
    bbox := some (env (f.geometry.getD "")),
    metadata := f.properties, created_at := now, updated_at := now }

/-- The rows a successful upload inserts, in parse order, with serial ids
starting at `startId`. -/
def uploadRows (env : String → String) (name : String) (now : Nat) :
    List Feature → Nat → List Row
  | [], _ => []
  | f :: fs, i => mkUploadRow env name now i f :: uploadRows env name now fs (i + 1)

/-- The committed state of a fully successful upload: prior rows with the
dataset name deleted, then one row per feature appended. -/
def uploadCommitState (s : DbState) (env : String → String) (name : String)
    (feats : List Feature) (now : Nat) : DbState :=
  { rows := deleteRowsNamed name s.rows ++ uploadRows env name now feats s.nextId,
    nextId := s.nextId + feats.length }

/-! ## The upload handler -/

/-- HTTP outcome of the upload handler. -/
inductive UploadResponse where
  | badRequest (msg : String)
  | created (count : Nat) (name : String)
  | serverError (msg : String)
deriving DecidableEq, Repr

/-- Everything observable about one run of the upload handler: the new
database state, the response, whether the temp-file cleanup loop ran
(`req.files.forEach(... fs.unlinkSync ...)`), whether a pool connection
was acquired, and whether it was released. -/
structure UploadOutcome where
  state : DbState
  response : UploadResponse
  filesCleaned : Bool
  connAcquired : Bool
  connReleased : Bool
deriving DecidableEq, Repr

/-- `router.post('/upload')` after multer.  `parseResult` is the output of
`shapefile.open` plus the read loop on the `.shp` file (`none` models the
parser throwing); `env` is the store's geometry engine (`ST_Envelope`);
`connectOk` is whether `pool.connect()` succeeds; `failAt` injects a
database failure into the transaction. -/
def handleUpload (s : DbState) (files : List UploadedFile)
    (parseResult : Option (List Feature)) (env : String → String)
    (connectOk : Bool) (failAt : Option Nat) (now : Nat) : UploadOutcome :=
  if files.length < 3 then
    { state := s, response := .badRequest "Please upload .shp, .shx, and .dbf files",
      filesCleaned := false, connAcquired := false, connReleased := false }
  else
    match findShp files with
    | none =>
        { state := s, response := .badRequest "No .shp file found",
          filesCleaned := false, connAcquired := false, connReleased := false }
    | some shp =>
        match parseResult with
        | none =>
            { state := s, response := .serverError "Failed to process shapefile",
              filesCleaned := false, connAcquired := false, connReleased := false }
        | some parsed =>
            let features := retainedFeatures parsed
            if features.length = 0 then
              { state := s, response := .badRequest "No valid features found in shapefile",
                filesCleaned := false, connAcquired := false, connReleased := false }
            else if !connectOk then
              { state := s, response := .serverError "Failed to process shapefile",
                filesCleaned := false, connAcquired := false, connReleased := false }
            else
              let r := uploadTxExec s env shp.originalname features now failAt
              if r.2 then
                { state := r.1, response := .created features.length shp.originalname,
                  filesCleaned := true, connAcquired := true, connReleased := true }
              else
                { state := r.1, response := .serverError "Failed to process shapefile",
                  filesCleaned := true, connAcquired := true, connReleased := true }

/-! ## The list handler (`router.get('/')`) -/

/-- The `ORDER BY created_at DESC` comparison. -/
def rowCreatedDesc (a b : Row) : Bool := decide (b.created_at ≤ a.created_at)

/-- `SELECT ... FROM shapefiles ORDER BY created_at DESC`. -/
def sortByCreatedDesc (rows : List Row) : List Row := rows.mergeSort rowCreatedDesc

/-- `Math.ceil(a / b)` for non-negative integers and positive `b`. -/
def ceilDiv (a b : Nat) : Nat := (a + b - 1) / b

/-- The `pagination` object of the list response. -/
structure PageInfo where
  total : Nat
  page : Nat
  limit : Nat
  totalPages : Nat
deriving DecidableEq, Repr

/-- `router.get('/')`: orders by creation time descending, applies
`LIMIT limit OFFSET (page - 1) * limit`, and reports
`totalPages = Math.ceil(count / limit)`.  `page` and `limit` are the
(numerically coerced) query parameters. -/
def handleList (rows : List Row) (page limit : Nat) : List Row × PageInfo :=
  let offset := (page - 1) * limit
  let items := ((sortByCreatedDesc rows).drop offset).take limit
  (items, { total := rows.length, page := page, limit := limit,
            totalPages := ceilDiv rows.length limit })

/-! ## The update handler (`router.put('/:id')`)

The body's `name` field is a string or absent; `metadata` is an arbitrary
JSON value (the falsy/truthy distinction matters, so it is a `JsVal`). -/

/-- JS truthiness of an optional string field. -/
def optStrTruthy : Option String → Bool
  | none => false
  | some s => !(s == "")

/-- HTTP outcome of the update handler. -/
inductive UpdateResponse where
  | badRequest (msg : String)
  | notFound (msg : String)
  | ok (r : Row)
deriving DecidableEq, Repr

/-- Effect of the dynamically built `UPDATE ... SET` list on one row:
`name` is assigned only when truthy, `metadata` only when truthy
(stored as `JSON.stringify(metadata)`), and `updated_at = NOW()`
always. -/
def applyUpdateRow (name : Option String) (metadata : JsVal) (now : Nat) (r : Row) : Row :=
  let r1 := if optStrTruthy name then { r with name := name.getD r.name } else r
  let r2 := if metadata.truthy then { r1 with metadata := some metadata.stringify } else r1
  { r2 with updated_at := now }

/-- `router.put('/:id')`: rejects when both fields are falsy, otherwise
runs the `UPDATE` on every row matching the id and returns the first
`RETURNING` row, or not-found when `rowCount` is zero. -/
def handleUpdate (s : DbState) (id : Nat) (name : Option String)
    (metadata : JsVal) (now : Nat) : DbState × UpdateResponse :=
  if !(optStrTruthy name) && !(metadata.truthy) then
    (s, .badRequest "No fields to update")
  else
    let newRows := s.rows.map (fun r => if r.id == id then applyUpdateRow name metadata now r else r)
    let s' : DbState := { s with rows := newRows }
    match newRows.find? (fun r => r.id == id) with
    | none => (s', .notFound "Shapefile not found")
    | some r => (s', .ok r)

/-! ## The GEE export handler (`router.post('/gee')`) -/

/-- The configuration of one supported index. -/
structure IndexConfig where
  collection : String
  bands : List String
  palette : List String
  formula : String
deriving DecidableEq, Repr

/-- The `SUPPORTED_INDICES` table, as a lookup by (upper-case) key. -/
def SUPPORTED_INDICES : String → Option IndexConfig := fun t =>
  if t == "NDVI" then
    some { collection := "COPERNICUS/S2_SR",
           bands := ["B8", "B4"],
           palette := ["#FFFFFF", "#CE7E45", "#DF923D", "#F1B555", "#FCD163", "#99B718",
                       "#74A901", "#66A000", "#529400", "#3E8601", "#207401", "#056201",
                       "#004C00", "#023B01", "#012E01", "#011D01", "#011301"],
           formula := "(B8 - B4)/(B8 + B4)" }
  else if t == "NDWI" then
    some { collection := "COPERNICUS/S2_SR",
           bands := ["B3", "B8"],
           palette := ["#ECE7F2", "#D0D1E6", "#A6BDDB", "#74A9CF", "#3690C0", "#0570B0",
                       "#045A8D", "#023858"],
           formula := "(B3 - B8)/(B3 + B8)" }
  else if t == "NDBI" then
    some { collection := "MODIS/006/MCD43A4",
           bands := ["Nadir_Reflectance_Band6", "Nadir_Reflectance_Band2"],
           palette := ["#FFFFCC", "#FFEDA0", "#FED976", "#FEB24C", "#FD8D3C", "#FC4E2A",
                       "#E31A1C", "#BD0026", "#800026"],
           formula := "(B6 - B2)/(B6 + B2)" }
  else none

/-- `JSON.stringify` of an array of strings. -/
def stringifyStrList (xs : List String) : String :=
  "[" ++ String.intercalate "," (xs.map (fun s => "\x22" ++ s ++ "\x22")) ++ "]"

/-- The body of the export handler's `geeCode` template literal, without
the leading and trailing newline of the template (the part that survives
`.trim()`), instantiated with the geometry's GeoJSON, the collection, the
stringified band and palette arrays, and the upper-cased index type. -/
def geeCodeCore (geometry collection : String) (bands palette : List String)
    (upperType : String) : String :=
  "var geometry = ee.Geometry(" ++ geometry ++ ");\n" ++
  "var collection = ee.ImageCollection(\x22" ++ collection ++ "\x22)\n" ++
  "  .filterBounds(geometry)\n" ++
  "  .filterDate(\x272023-01-01\x27, \x272023-12-31\x27);\n" ++
  "var image = collection.median()\n" ++
  "  .normalizedDifference(" ++ stringifyStrList bands ++ ");\n" ++
  "Map.centerObject(geometry, 10);\n" ++
  "Map.addLayer(image, \x7b\n" ++
  "  min: 0,\n" ++
  "  max: 1,\n" ++
  "  palette: " ++ stringifyStrList palette ++ ",\n" ++
  "  opacity: 0.8\n" ++
  "\x7d, \x27" ++ upperType ++ " Index\x27);"

/-- The script template of the export handler (the `geeCode` template
literal): a newline, the body, a newline. -/
def geeCode (geometry collection : String) (bands palette : List String)
    (upperType : String) : String :=
  "\n" ++ geeCodeCore geometry collection bands palette upperType ++ "\n"

/-- JS truthiness of the `shapefileId` body field (a number or absent). -/
def natIdTruthy : Option Nat → Bool
  | none => false
  | some n => !(n == 0)

/-- HTTP outcome of the export handler. -/
inductive GeeResponse where
  | badRequest (msg : String)
  | notFound (msg : String)
  | ok (indexType : String) (gee_code : String) (formula : String) (timestamp : String)
deriving DecidableEq, Repr

/-- `router.post('/gee')`: rejects when `type` is falsy, unsupported after
upper-casing, or `shapefileId` is falsy; not-found when no row has the
id; otherwise returns the trimmed instantiated script together with the
formula, the upper-cased type and the ISO timestamp `nowIso`. -/
def handleGee (s : DbState) (indexType : Option String) (shapefileId : Option Nat)
    (nowIso : String) : GeeResponse :=
  let upperT := strUpper (indexType.getD "")
  if optStrTruthy indexType && (SUPPORTED_INDICES upperT).isSome && natIdTruthy shapefileId then
    match SUPPORTED_INDICES upperT, shapefileId with
    | some cfg, some sid =>
        match s.rows.find? (fun r => r.id == sid) with
        | none => .notFound "Shapefile not found"
        | some r =>
            .ok upperT (strTrim (geeCode r.geom cfg.collection cfg.bands cfg.palette upperT))
              cfg.formula nowIso
    | _, _ => .badRequest "Missing type or shapefileId"
  else .badRequest "Missing type or shapefileId"

/-! ## 500-class response bodies and error logs

One definition per `catch` block in the source: the JSON body sent with
status 500 (`error` plus the optional `details` field) and the
corresponding `logger.error` line (whether it carries the per-request
correlation identifier, its message, and the original error text). -/

/-- The body of a 500 response. -/
structure ErrorBody where
  error : String
  details : Option String
deriving DecidableEq, Repr

/-- One `logger.error` line emitted from a catch block. -/
structure LogEntry where
  correlationId : Option String
  message : String
  errorText : String
deriving DecidableEq, Repr

/-- `POST /api/satellite/fetch-image` catch: the body includes the
original `error.message` as `details`. -/
def fetchImageErrorBody (errMsg : String) : ErrorBody :=
  { error := "Failed to fetch images", details := some errMsg }

/-- `POST /api/satellite/fetch-image` catch log line. -/
def fetchImageErrorLog (tid errMsg : String) : LogEntry :=
  { correlationId := some tid, message := "Failed to fetch images", errorText := errMsg }

/-- `POST /api/shapefile/upload` outer catch body. -/
def uploadErrorBody (_errMsg : String) : ErrorBody :=
  { error := "Failed to process shapefile", details := none }

/-- `POST /api/shapefile/upload` outer catch log line. -/
def uploadErrorLog (tid errMsg : String) : LogEntry :=
  { correlationId := some tid, message := "Processing failed", errorText := errMsg }

/-- `GET /api/shapefile` catch body. -/
def listErrorBody (_errMsg : String) : ErrorBody :=
  { error := "Failed to fetch data", details := none }

/-- `GET /api/shapefile` catch log line (no correlation identifier). -/
def listErrorLog (errMsg : String) : LogEntry :=
  { correlationId := none, message := "Failed to fetch shapefiles", errorText := errMsg }

/-- `GET /api/shapefile/:id` catch body. -/
def getByIdErrorBody (_errMsg : String) : ErrorBody :=
  { error := "Failed to fetch shapefile", details := none }

/-- `PUT /api/shapefile/:id` catch body. -/
def updateErrorBody (_errMsg : String) : ErrorBody :=
  { error := "Failed to update shapefile", details := none }

/-- `PUT /api/shapefile/:id` catch log line (no correlation identifier). -/
def updateErrorLog (errMsg : String) : LogEntry :=
  { correlationId := none, message := "Failed to update shapefile", errorText := errMsg }

/-- `DELETE /api/shapefile/:id` catch body. -/
def deleteErrorBody (_errMsg : String) : ErrorBody :=
  { error := "Failed to delete shapefile", details := none }

/-- `POST /api/satellite/process-image` catch body. -/
def processImageErrorBody (_errMsg : String) : ErrorBody :=
  { error := "Image processing failed", details := none }

/-- The app-level unhandled-error fallback body. -/
def unhandledErrorBody (_errMsg : String) : ErrorBody :=
  { error := "Internal server error", details := none }

/-- What one `catch` block does with the error it receives: either it
logs one line and sends one 500 body, or evaluating the catch block
itself raises a `ReferenceError` on the named identifier, so that
neither a log line nor a response body is produced by it. -/
inductive CatchOutcome where
  | handled (log : LogEntry) (body : ErrorBody)
  | referenceError (ident : String)
deriving DecidableEq, Repr

/-- `POST /api/shapefile/upload` outer catch: logs
`[tid] Processing failed` and sends the generic body. -/
def uploadCatchOutcome (tid errMsg : String) : CatchOutcome :=
  .handled (uploadErrorLog tid errMsg) (uploadErrorBody errMsg)

/-- `GET /api/shapefile` catch: logs without a correlation identifier. -/
def listCatchOutcome (errMsg : String) : CatchOutcome :=
  .handled (listErrorLog errMsg) (listErrorBody errMsg)

/-- `GET /api/shapefile/:id` catch. -/
def getByIdCatchOutcome (errMsg : String) : CatchOutcome :=
  .handled { correlationId := none, message := "Failed to fetch shapefile", errorText := errMsg }
    (getByIdErrorBody errMsg)

/-- `GET /api/shapefile/:id/geometry` catch. -/
def geometryCatchOutcome (errMsg : String) : CatchOutcome :=
  .handled { correlationId := none, message := "Failed to fetch shapefile geometry",
             errorText := errMsg }
    { error := "Failed to fetch geometry", details := none }

/-- `PUT /api/shapefile/:id` catch. -/
def updateCatchOutcome (errMsg : String) : CatchOutcome :=
  .handled (updateErrorLog errMsg) (updateErrorBody errMsg)

/-- `DELETE /api/shapefile/:id` catch. -/
def deleteCatchOutcome (errMsg : String) : CatchOutcome :=
  .handled { correlationId := none, message := "Failed to delete shapefile", errorText := errMsg }
    (deleteErrorBody errMsg)

/-- `GET /api/shapefile/:id/geojson` catch. -/
def geojsonCatchOutcome (errMsg : String) : CatchOutcome :=
  .handled { correlationId := none, message := "Failed to export GeoJSON", errorText := errMsg }
    { error := "Failed to export data", details := none }

/-- `POST /api/satellite/fetch-image` catch: logs with the correlation
identifier and sends the body that discloses `error.message` as
`details`. -/
def fetchImageCatchOutcome (tid errMsg : String) : CatchOutcome :=
  .handled (fetchImageErrorLog tid errMsg) (fetchImageErrorBody errMsg)

/-- `POST /api/satellite/process-image` catch: logs
`[tid] Processing failed` (its `transactionId` is declared before the
`try`, so it is in scope) and sends the generic body. -/
def processImageCatchOutcome (tid errMsg : String) : CatchOutcome :=
  .handled { correlationId := some tid, message := "Processing failed", errorText := errMsg }
    (processImageErrorBody errMsg)

/-- `GET /api/satellite/preview/:shapefileId` catch. -/
def previewCatchOutcome (errMsg : String) : CatchOutcome :=
  .handled { correlationId := none, message := "Failed to fetch preview", errorText := errMsg }
    { error := "Failed to fetch preview", details := none }

/-- `POST /api/export/gee` catch: `const transactionId` is declared
inside the `try` block while the catch's log template references it, so
evaluating the catch raises a `ReferenceError` on `transactionId` — the
`Export failed` log line and the `Internal server error` body are never
produced by this handler. -/
def geeCatchOutcome (_errMsg : String) : CatchOutcome :=
  .referenceError "transactionId"

/-- The app-level unhandled-error fallback: logs `Unhandled error`
without a correlation identifier and sends the generic body. -/
def unhandledCatchOutcome (errMsg : String) : CatchOutcome :=
  .handled { correlationId := none, message := "Unhandled error", errorText := errMsg }
    (unhandledErrorBody errMsg)

/-- Every catch block of the application, for one error with text
`errMsg` under correlation identifier `tid`. -/
def allCatchOutcomes (tid errMsg : String) : List CatchOutcome :=
  [uploadCatchOutcome tid errMsg, listCatchOutcome errMsg, getByIdCatchOutcome errMsg,
   geometryCatchOutcome errMsg, updateCatchOutcome errMsg, deleteCatchOutcome errMsg,
   geojsonCatchOutcome errMsg, fetchImageCatchOutcome tid errMsg,
   processImageCatchOutcome tid errMsg, previewCatchOutcome errMsg,
   geeCatchOutcome errMsg, unhandledCatchOutcome errMsg]

/-! ## Occurrence of one string inside another -/

/-- `needle` occurs verbatim inside `hay`. -/
def strOccurs (needle hay : String) : Prop := ∃ pre post, hay = pre ++ needle ++ post

/-! ## Concrete fixtures used to instantiate the theorems -/

/-- A concrete stand-in for the store's geometry engine. -/
def exEnv : String → String := fun g => "ENV(" ++ g ++ ")"

def exShp : UploadedFile := { originalname := "a.shp", path := "uploads/1" }

def exShx : UploadedFile := { originalname := "a.shx", path := "uploads/2" }

def exDbf : UploadedFile := { originalname := "a.dbf", path := "uploads/3" }

def exPrj : UploadedFile := { originalname := "a.prj", path := "uploads/4" }

def exFeat1 : Feature := { geometry := some "G1", properties := some "P1" }

def exFeatNull : Feature := { geometry := none, properties := some "P2" }

def exDb0 : DbState := { rows := [], nextId := 1 }

def exRow : Row :=
  { id := 1, name := "ds", geom := "G", bbox := some "B", metadata := none,
    created_at := 0, updated_at := 0 }

def exGeoRow : Row :=
  { id := 1, name := "zone", geom := "GEO1", bbox := none, metadata := none,
    created_at := 0, updated_at := 0 }

def exRows25 : List Row :=
  (List.range 25).map (fun i =>
    { id := i + 1, name := "d", geom := "g", bbox := none, metadata := none,
      created_at := i, updated_at := i })

/-! ## Transaction lemmas -/

/-- The statements of the upload transaction before `COMMIT`. -/
def txInit (env : String → String) (name : String) (feats : List Feature) : List SqlOp :=
  .begin :: .deleteByName name :: feats.flatMap (featureOps env name)

theorem txOps_eq (env : String → String) (name : String) (feats : List Feature) :
    txOps env name feats = txInit env name feats ++ [SqlOp.commit] := rfl

theorem applyOps_append (now : Nat) (t : TxState) (l₁ l₂ : List SqlOp) :
    applyOps now t (l₁ ++ l₂) = applyOps now (applyOps now t l₁) l₂ :=
  List.foldl_append _ _ _ _

theorem txInit_safe (env : String → String) (name : String) (feats : List Feature) :
    ∀ op ∈ txInit env name feats, op ≠ SqlOp.commit ∧ op ≠ SqlOp.rollback := by
  intro op hop
  simp only [txInit, List.mem_cons, List.mem_flatMap, featureOps] at hop
  rcases hop with h | h | ⟨f, _, h⟩
  · subst h; exact ⟨by simp, by simp⟩
  · subst h; exact ⟨by simp, by simp⟩
  · simp only [List.mem_cons, List.not_mem_nil, or_false] at h
    rcases h with h | h <;> subst h <;> exact ⟨by simp, by simp⟩

/-- Statements that neither commit nor roll back, run inside an open
transaction, leave the committed state untouched and keep the
transaction open. -/
theorem applyOps_safe_working (now : Nat) :
    ∀ (ops : List SqlOp), (∀ op ∈ ops, op ≠ SqlOp.commit ∧ op ≠ SqlOp.rollback) →
    ∀ (c w : DbState), ∃ w', applyOps now { committed := c, working := some w } ops =
      { committed := c, working := some w' } := by
  intro ops
  induction ops with
  | nil => exact fun _ c w => ⟨w, rfl⟩
  | cons op rest ih =>
    intro h c w
    have hop := h op (List.mem_cons_self _ _)
    have hrest := fun o ho => h o (List.mem_cons_of_mem _ ho)
    cases op with
    | begin => simpa [applyOps, applyOp] using ih hrest c c
    | deleteByName n => simpa [applyOps, applyOp] using ih hrest c _
    | selectEnvelope g => simpa [applyOps, applyOp] using ih hrest c w
    | insert n g md b => simpa [applyOps, applyOp] using ih hrest c _
    | commit => exact absurd rfl hop.1
    | rollback => exact absurd rfl hop.2

/-- Any proper prefix of the transaction's statements leaves the committed
state untouched. -/
theorem applyOps_take_txInit_committed (s : DbState) (env : String → String) (name : String)
    (feats : List Feature) (now k : Nat) :
    (applyOps now { committed := s, working := none }
      ((txInit env name feats).take k)).committed = s := by
  cases k with
  | zero => rfl
  | succ j =>
    have hshape : (txInit env name feats).take (j + 1) =
        SqlOp.begin :: ((SqlOp.deleteByName name :: feats.flatMap (featureOps env name)).take j) := by
      simp [txInit, List.take_succ_cons]
    have hsafe : ∀ op ∈ ((SqlOp.deleteByName name :: feats.flatMap (featureOps env name)).take j),
        op ≠ SqlOp.commit ∧ op ≠ SqlOp.rollback := by
      intro op hop
      exact txInit_safe env name feats op (List.mem_cons_of_mem _ (List.take_subset _ _ hop))
    obtain ⟨w', hw⟩ := applyOps_safe_working now _ hsafe s s
    have hstep : applyOps now { committed := s, working := none }
        (SqlOp.begin :: ((SqlOp.deleteByName name :: feats.flatMap (featureOps env name)).take j)) =
        applyOps now { committed := s, working := some s }
          ((SqlOp.deleteByName name :: feats.flatMap (featureOps env name)).take j) := rfl
    rw [hshape, hstep, hw]

/-- A database failure at any statement of the transaction rolls the
whole transaction back: the committed state is exactly what it was. -/
theorem uploadTxExec_fail (s : DbState) (env : String → String) (name : String)
    (feats : List Feature) (now k : Nat) (hk : k < (txOps env name feats).length) :
    uploadTxExec s env name feats now (some k) = (s, false) := by
  have hk' : k ≤ (txInit env name feats).length := by
    have h2 : (txOps env name feats).length = (txInit env name feats).length + 1 := by
      rw [txOps_eq]; simp
    omega
  have htake : (txOps env name feats).take k = (txInit env name feats).take k := by
    rw [txOps_eq]; exact List.take_append_of_le_length hk'
  have hroll : applyOps now { committed := s, working := none }
      ((txOps env name feats).take k ++ [SqlOp.rollback]) =
      applyOp now (applyOps now { committed := s, working := none }
        ((txOps env name feats).take k)) SqlOp.rollback := applyOps_append _ _ _ _
  simp only [uploadTxExec, hk, if_pos]
  rw [hroll, htake]
  have : (applyOp now (applyOps now { committed := s, working := none }
      ((txInit env name feats).take k)) SqlOp.rollback).committed =
      (applyOps now { committed := s, working := none }
        ((txInit env name feats).take k)).committed := rfl
  rw [this, applyOps_take_txInit_committed]

/-- Running the per-feature statement pairs inside an open transaction
appends exactly one row per feature, in order, to the working snapshot. -/
theorem applyOps_flatMap_insert (env : String → String) (name : String) (now : Nat) :
    ∀ (feats : List Feature) (c w : DbState),
    applyOps now { committed := c, working := some w } (feats.flatMap (featureOps env name)) =
      { committed := c,
        working := some { rows := w.rows ++ uploadRows env name now feats w.nextId,
                          nextId := w.nextId + feats.length } } := by
  intro feats
  induction feats with
  | nil => intro c w; simp [applyOps, uploadRows]
  | cons f fs ih =>
    intro c w
    have hstep : applyOps now { committed := c, working := some w }
        ((f :: fs).flatMap (featureOps env name)) =
        applyOps now { committed := c, working := some (insertRow now name
          (f.geometry.getD "") f.properties (env (f.geometry.getD "")) w) }
          (fs.flatMap (featureOps env name)) := rfl
    rw [hstep, ih]
    simp [insertRow, uploadRows, mkUploadRow, List.append_assoc]
    omega

/-- The full transaction commits the delete followed by all the
per-feature inserts. -/
theorem applyOps_txOps (s : DbState) (env : String → String) (name : String)
    (feats : List Feature) (now : Nat) :
    applyOps now { committed := s, working := none } (txOps env name feats) =
      { committed := uploadCommitState s env name feats now, working := none } := by
  have hstep : applyOps now { committed := s, working := none } (txOps env name feats) =
      applyOps now { committed := s,
                     working := some { rows := deleteRowsNamed name s.rows,
                                       nextId := s.nextId } }
        (feats.flatMap (featureOps env name) ++ [SqlOp.commit]) := rfl
  rw [hstep, applyOps_append, applyOps_flatMap_insert]
  rfl

/-- With no failure inside the transaction, the upload commits. -/
theorem uploadTxExec_commit (s : DbState) (env : String → String) (name : String)
    (feats : List Feature) (now : Nat) (failAt : Option Nat)
    (h : ∀ k, failAt = some k → ¬ k < (txOps env name feats).length) :
    uploadTxExec s env name feats now failAt =
      (uploadCommitState s env name feats now, true) := by
  cases failAt with
  | none => simp [uploadTxExec, applyOps_txOps]
  | some k => simp [uploadTxExec, h k rfl, applyOps_txOps]

/-- C1: for every upload request, the persisted outcome is all-or-nothing:
either the request completes and the committed state is exactly the prior
rows minus those with the dataset name plus one row per parsed feature
(and the response reports success), or the committed state is exactly the
state before the request — in particular the set of rows for the dataset
name is unchanged — and no success response is produced. -/
theorem upload_all_or_nothing (s : DbState) (files : List UploadedFile)
    (parseResult : Option (List Feature)) (env : String → String)
    (connectOk : Bool) (failAt : Option Nat) (now : Nat) :
    ((handleUpload s files parseResult env connectOk failAt now).state = s ∧
      ∀ n nm, (handleUpload s files parseResult env connectOk failAt now).response ≠
        UploadResponse.created n nm) ∨
    (∃ shp parsed, findShp files = some shp ∧ parseResult = some parsed ∧
      (handleUpload s files parseResult env connectOk failAt now).state =
        uploadCommitState s env shp.originalname (retainedFeatures parsed) now ∧
      (handleUpload s files parseResult env connectOk failAt now).response =
        UploadResponse.created (retainedFeatures parsed).length shp.originalname) := by
  by_cases h3 : files.length < 3
  · left; constructor <;> simp [handleUpload, h3]
  · cases hfind : findShp files with
    | none => left; constructor <;> simp [handleUpload, h3, hfind]
    | some shp =>
      cases parseResult with
      | none => left; constructor <;> simp [handleUpload, h3, hfind]
      | some parsed =>
        by_cases hlen : (retainedFeatures parsed).length = 0
        · left; constructor <;> simp [handleUpload, h3, hfind, hlen]
        · cases connectOk with
          | false => left; constructor <;> simp [handleUpload, h3, hfind, hlen]
          | true =>
            cases failAt with
            | none =>
                right
                refine ⟨shp, parsed, rfl, rfl, ?_, ?_⟩ <;>
                  simp [handleUpload, h3, hfind, hlen,
                    uploadTxExec_commit s env shp.originalname (retainedFeatures parsed) now none
                      (by intro k hk; cases hk)]
            | some k =>
                by_cases hk : k < (txOps env shp.originalname (retainedFeatures parsed)).length
                · left
                  constructor <;>
                    simp [handleUpload, h3, hfind, hlen,
                      uploadTxExec_fail s env shp.originalname (retainedFeatures parsed) now k hk]
                · right
                  refine ⟨shp, parsed, rfl, rfl, ?_, ?_⟩ <;>
                    simp [handleUpload, h3, hfind, hlen,
                      uploadTxExec_commit s env shp.originalname (retainedFeatures parsed) now
                        (some k) (by intro j hj; cases hj; exact hk)]

/-! ## Row-level facts about the inserted rows -/

theorem uploadRows_length (env : String → String) (name : String) (now : Nat) :
    ∀ (feats : List Feature) (i : Nat),
      (uploadRows env name now feats i).length = feats.length := by
  intro feats
  induction feats with
  | nil => intro i; rfl
  | cons f fs ih => intro i; simp [uploadRows, ih]

theorem uploadRows_name (env : String → String) (name : String) (now : Nat) :
    ∀ (feats : List Feature) (i : Nat),
      ∀ r ∈ uploadRows env name now feats i, r.name = name := by
  intro feats
  induction feats with
  | nil => intro i r hr; cases hr
  | cons f fs ih =>
    intro i r hr
    cases hr with
    | head => rfl
    | tail _ hr => exact ih (i + 1) r hr

theorem uploadRows_bbox (env : String → String) (name : String) (now : Nat) :
    ∀ (feats : List Feature) (i : Nat),
      ∀ r ∈ uploadRows env name now feats i, r.bbox = some (env r.geom) := by
  intro feats
  induction feats with
  | nil => intro i r hr; cases hr
  | cons f fs ih =>
    intro i r hr
    cases hr with
    | head => rfl
    | tail _ hr => exact ih (i + 1) r hr

theorem uploadRows_geom (env : String → String) (name : String) (now : Nat) :
    ∀ (feats : List Feature) (i : Nat),
      (uploadRows env name now feats i).map Row.geom =
        feats.map (fun f => f.geometry.getD "") := by
  intro feats
  induction feats with
  | nil => intro i; rfl
  | cons f fs ih => intro i; simp [uploadRows, mkUploadRow, ih]

theorem filter_name_deleteRowsNamed (name : String) (rows : List Row) :
    (deleteRowsNamed name rows).filter (fun r => r.name == name) = [] := by
  simp [deleteRowsNamed, List.filter_filter]

theorem filter_name_uploadRows (env : String → String) (name : String) (now : Nat)
    (feats : List Feature) (i : Nat) :
    (uploadRows env name now feats i).filter (fun r => r.name == name) =
      uploadRows env name now feats i := by
  apply List.filter_eq_self.mpr
  intro r hr
  simp [uploadRows_name env name now feats i r hr]

/-- C2: a successful upload of a parse yielding `N` features with
non-null geometry responds with count `N` and persists under the dataset
name exactly the `N` inserted rows, in parse order (their `geom` column
lists the serialized geometries in sequence), each with
`bbox = some (env geom)` — the envelope computed by the store's geometry
engine at insert time. -/
theorem upload_success_rows (s : DbState) (files : List UploadedFile)
    (parsed : List Feature) (env : String → String) (now : Nat) (shp : UploadedFile)
    (h3 : ¬ files.length < 3) (hshp : findShp files = some shp)
    (hne : (retainedFeatures parsed).length ≠ 0) :
    (handleUpload s files (some parsed) env true none now).response =
      UploadResponse.created (retainedFeatures parsed).length shp.originalname ∧
    (handleUpload s files (some parsed) env true none now).state.rows.filter
        (fun r => r.name == shp.originalname) =
      uploadRows env shp.originalname now (retainedFeatures parsed) s.nextId ∧
    (uploadRows env shp.originalname now (retainedFeatures parsed) s.nextId).length =
      (retainedFeatures parsed).length ∧
    (uploadRows env shp.originalname now (retainedFeatures parsed) s.nextId).map Row.geom =
      (retainedFeatures parsed).map (fun f => f.geometry.getD "") ∧
    ∀ r ∈ uploadRows env shp.originalname now (retainedFeatures parsed) s.nextId,
      r.bbox = some (env r.geom) := by
  have hcommit := uploadTxExec_commit s env shp.originalname (retainedFeatures parsed) now none
    (by intro k hk; cases hk)
  refine ⟨?_, ?_, uploadRows_length _ _ _ _ _, uploadRows_geom _ _ _ _ _,
    uploadRows_bbox _ _ _ _ _⟩
  · simp [handleUpload, h3, hshp, hne, hcommit]
  · simp [handleUpload, h3, hshp, hne, hcommit, uploadCommitState, List.filter_append,
      filter_name_deleteRowsNamed, filter_name_uploadRows]

/-- Witness for C2 at a concrete three-file upload with one retained and
one null-geometry feature. -/
theorem upload_success_rows_witness :
    (handleUpload exDb0 [exShp, exShx, exDbf] (some [exFeat1, exFeatNull])
        exEnv true none 7).response = UploadResponse.created 1 "a.shp" ∧
    (handleUpload exDb0 [exShp, exShx, exDbf] (some [exFeat1, exFeatNull])
        exEnv true none 7).state.rows.filter (fun r => r.name == "a.shp") =
      uploadRows exEnv "a.shp" 7 (retainedFeatures [exFeat1, exFeatNull]) 1 := by
  have h := upload_success_rows exDb0 [exShp, exShx, exDbf] [exFeat1, exFeatNull] exEnv 7 exShp
    (by decide) (by decide) (by decide)
  exact ⟨h.1, h.2.1⟩

/-- C3 counterexample: a two-file request is answered with the validation
error — a response is sent — yet the temp-file cleanup loop never runs,
because the cleanup sits in the `finally` of the block entered only after
`pool.connect()`. -/
theorem upload_cleanup_counterexample :
    (handleUpload exDb0 [exShp, exShx] none exEnv true none 0).response =
      UploadResponse.badRequest "Please upload .shp, .shx, and .dbf files" ∧
    (handleUpload exDb0 [exShp, exShx] none exEnv true none 0).filesCleaned = false := by
  decide

/-- C3 amended: temp files are removed exactly on the runs that acquire a
database connection (the validation-failure, parse-failure and
zero-feature paths respond without removing them), and the connection is
released precisely when it was acquired — on the success and the
database-failure path alike. -/
theorem upload_cleanup_iff_connected (s : DbState) (files : List UploadedFile)
    (parseResult : Option (List Feature)) (env : String → String)
    (connectOk : Bool) (failAt : Option Nat) (now : Nat) :
    (handleUpload s files parseResult env connectOk failAt now).filesCleaned =
      (handleUpload s files parseResult env connectOk failAt now).connAcquired ∧
    (handleUpload s files parseResult env connectOk failAt now).connReleased =
      (handleUpload s files parseResult env connectOk failAt now).connAcquired ∧
    ((handleUpload s files parseResult env connectOk failAt now).connAcquired = true ↔
      (¬ files.length < 3 ∧ (findShp files).isSome = true ∧
        ∃ parsed, parseResult = some parsed ∧
          (retainedFeatures parsed).length ≠ 0 ∧ connectOk = true)) := by
  by_cases h3 : files.length < 3
  · refine ⟨?_, ?_, ?_⟩ <;> simp [handleUpload, h3]
  · cases hfind : findShp files with
    | none =>
        refine ⟨?_, ?_, ?_⟩ <;> simp [handleUpload, h3, hfind]
    | some shp =>
        cases parseResult with
        | none => refine ⟨?_, ?_, ?_⟩ <;> simp [handleUpload, h3, hfind]
        | some parsed =>
            by_cases hlen : retainedFeatures parsed = []
            · refine ⟨?_, ?_, ?_⟩ <;>
                simp [handleUpload, h3, hfind, List.length_eq_zero, hlen]
            · cases connectOk with
              | false =>
                  refine ⟨?_, ?_, ?_⟩ <;>
                    simp [handleUpload, h3, hfind, List.length_eq_zero, hlen]
              | true =>
                  cases hr : (uploadTxExec s env shp.originalname (retainedFeatures parsed)
                      now failAt).2 <;>
                    refine ⟨?_, ?_, ?_⟩ <;>
                      simp [handleUpload, h3, hfind, List.length_eq_zero, hlen, hr]

/-- C4: features whose geometry is null or absent are dropped while the
remaining features keep their order (the retained sequence is a sublist
of the parsed sequence containing exactly the non-null-geometry
features), and a dataset retaining zero features is rejected with the
validation error without touching the store or acquiring a
connection. -/
theorem upload_null_geometry_policy (s : DbState) (files : List UploadedFile)
    (parsed : List Feature) (env : String → String) (connectOk : Bool)
    (failAt : Option Nat) (now : Nat) :
    (retainedFeatures parsed).Sublist parsed ∧
    (∀ f ∈ retainedFeatures parsed, f.geometry.isSome = true) ∧
    (∀ f ∈ parsed, f.geometry.isSome = true → f ∈ retainedFeatures parsed) ∧
    (¬ files.length < 3 → (findShp files).isSome = true →
      retainedFeatures parsed = [] →
      handleUpload s files (some parsed) env connectOk failAt now =
        { state := s, response := UploadResponse.badRequest "No valid features found in shapefile",
          filesCleaned := false, connAcquired := false, connReleased := false }) := by
  refine ⟨List.filter_sublist _, ?_, ?_, ?_⟩
  · intro f hf
    exact (List.mem_filter.mp hf).2
  · intro f hf hg
    exact List.mem_filter.mpr ⟨hf, hg⟩
  · intro h3 hfind hnil
    obtain ⟨shp, hshp⟩ := Option.isSome_iff_exists.mp hfind
    simp [handleUpload, h3, hshp, hnil]

/-- Witness for C4: a one-feature dataset whose only geometry is null is
rejected with the validation error and leaves the store unchanged. -/
theorem upload_null_geometry_policy_witness :
    handleUpload exDb0 [exShp, exShx, exDbf] (some [exFeatNull]) exEnv true none 3 =
      { state := exDb0, response := UploadResponse.badRequest "No valid features found in shapefile",
        filesCleaned := false, connAcquired := false, connReleased := false } :=
  (upload_null_geometry_policy exDb0 [exShp, exShx, exDbf] [exFeatNull] exEnv true none 3).2.2.2
    (by decide) (by decide) (by decide)

/-! ## Update lemmas -/

theorem applyUpdateRow_id (name : Option String) (metadata : JsVal) (now : Nat) (r : Row) :
    (applyUpdateRow name metadata now r).id = r.id := by
  unfold applyUpdateRow
  by_cases h1 : optStrTruthy name = true <;> by_cases h2 : metadata.truthy = true <;>
    simp [h1, h2]

theorem applyUpdateRow_name (name : Option String) (metadata : JsVal) (now : Nat) (r : Row) :
    (applyUpdateRow name metadata now r).name =
      if optStrTruthy name then name.getD r.name else r.name := by
  unfold applyUpdateRow
  by_cases h1 : optStrTruthy name = true <;> by_cases h2 : metadata.truthy = true <;>
    simp [h1, h2]

theorem applyUpdateRow_metadata (name : Option String) (metadata : JsVal) (now : Nat) (r : Row) :
    (applyUpdateRow name metadata now r).metadata =
      if metadata.truthy then some metadata.stringify else r.metadata := by
  unfold applyUpdateRow
  by_cases h1 : optStrTruthy name = true <;> by_cases h2 : metadata.truthy = true <;>
    simp [h1, h2]

theorem applyUpdateRow_updated_at (name : Option String) (metadata : JsVal) (now : Nat) (r : Row) :
    (applyUpdateRow name metadata now r).updated_at = now := by
  unfold applyUpdateRow
  by_cases h1 : optStrTruthy name = true <;> by_cases h2 : metadata.truthy = true <;>
    simp [h1, h2]

/-- When at least one field is truthy, the new database state is the row
list with the matching rows rewritten, whatever the find result. -/
theorem handleUpdate_fst (s : DbState) (id : Nat) (name : Option String)
    (metadata : JsVal) (now : Nat)
    (h : (!(optStrTruthy name) && !(metadata.truthy)) = false) :
    (handleUpdate s id name metadata now).1 =
      { s with rows := s.rows.map
                         (fun r => if r.id == id then applyUpdateRow name metadata now r else r) } := by
  simp only [handleUpdate, h, Bool.false_eq_true, if_false]
  cases (s.rows.map (fun r => if r.id == id then applyUpdateRow name metadata now r else r)).find?
      (fun r => r.id == id) <;> rfl

/-- C5: the update endpoint rejects a request supplying neither field as
a no-op error; it reports not-found when no row carries the id; otherwise
only the supplied fields are assigned — a metadata-only update leaves
`name` unchanged, a name-only update leaves `metadata` unchanged — and
`updated_at` is always refreshed. -/
theorem update_contract (s : DbState) (id : Nat) (name : Option String)
    (metadata : JsVal) (now : Nat) :
    (handleUpdate s id none JsVal.undef now =
      (s, UpdateResponse.badRequest "No fields to update")) ∧
    ((optStrTruthy name || metadata.truthy) = true → (∀ r ∈ s.rows, r.id ≠ id) →
      handleUpdate s id name metadata now = (s, UpdateResponse.notFound "Shapefile not found")) ∧
    (metadata.truthy = true →
      ∀ r' ∈ (handleUpdate s id none metadata now).1.rows, r'.id = id →
        ∃ r ∈ s.rows, r.id = id ∧ r'.name = r.name ∧
          r'.metadata = some metadata.stringify ∧ r'.updated_at = now) ∧
    (∀ nm : String, nm ≠ "" → metadata.truthy = false →
      ∀ r' ∈ (handleUpdate s id (some nm) metadata now).1.rows, r'.id = id →
        ∃ r ∈ s.rows, r.id = id ∧ r'.name = nm ∧
          r'.metadata = r.metadata ∧ r'.updated_at = now) := by
  refine ⟨rfl, ?_, ?_, ?_⟩
  · intro htr hno
    have hcond : (!(optStrTruthy name) && !(metadata.truthy)) = false := by
      cases h1 : optStrTruthy name <;> cases h2 : metadata.truthy <;> simp_all
    have hmap : s.rows.map
        (fun r => if r.id == id then applyUpdateRow name metadata now r else r) = s.rows := by
      conv_rhs => rw [← List.map_id s.rows]
      apply List.map_congr_left
      intro r hr
      simp [beq_eq_false_iff_ne.mpr (hno r hr)]
    have hfind : s.rows.find? (fun r => r.id == id) = none :=
      List.find?_eq_none.mpr (fun r hr => by simp [hno r hr])
    simp only [handleUpdate, hcond, Bool.false_eq_true, if_false, hmap, hfind]
  · intro htr r' hr' hid
    have hcond : (!(optStrTruthy none) && !(metadata.truthy)) = false := by
      simp [optStrTruthy, htr]
    rw [handleUpdate_fst s id none metadata now hcond] at hr'
    obtain ⟨r, hr, hfr⟩ := List.mem_map.mp hr'
    by_cases hcase : (r.id == id) = true
    · simp only [hcase, if_true] at hfr
      refine ⟨r, hr, by simpa using hcase, ?_, ?_, ?_⟩
      · rw [← hfr, applyUpdateRow_name]; simp [optStrTruthy]
      · rw [← hfr, applyUpdateRow_metadata, if_pos htr]
      · rw [← hfr, applyUpdateRow_updated_at]
    · simp only [hcase, Bool.false_eq_true, if_false] at hfr
      subst hfr
      exact absurd hid (by simpa using hcase)
  · intro nm hnm hmd r' hr' hid
    have hopt : optStrTruthy (some nm) = true := by simp [optStrTruthy, hnm]
    have hcond : (!(optStrTruthy (some nm)) && !(metadata.truthy)) = false := by
      simp [hopt]
    rw [handleUpdate_fst s id (some nm) metadata now hcond] at hr'
    obtain ⟨r, hr, hfr⟩ := List.mem_map.mp hr'
    by_cases hcase : (r.id == id) = true
    · simp only [hcase, if_true] at hfr
      refine ⟨r, hr, by simpa using hcase, ?_, ?_, ?_⟩
      · rw [← hfr, applyUpdateRow_name, if_pos hopt]; rfl
      · rw [← hfr, applyUpdateRow_metadata, if_neg (by simp [hmd])]
      · rw [← hfr, applyUpdateRow_updated_at]
    · simp only [hcase, Bool.false_eq_true, if_false] at hfr
      subst hfr
      exact absurd hid (by simpa using hcase)

/-- Witness for C5: updating a missing id with a supplied name yields the
not-found error and leaves the state unchanged. -/
theorem update_contract_witness :
    handleUpdate { rows := [exRow], nextId := 2 } 9 (some "nm") (JsVal.str "m") 4 =
      ({ rows := [exRow], nextId := 2 }, UpdateResponse.notFound "Shapefile not found") :=
  (update_contract { rows := [exRow], nextId := 2 } 9 (some "nm") (JsVal.str "m") 4).2.1
    (by decide) (by decide)

/-- C10: the update endpoint tests field presence by truthiness: an
empty-string `name` together with an absent `metadata` (and likewise an
absent `name` with any falsy `metadata`) is rejected with the no-op
error, and consequently an update can never set `name` to the empty
string — any row with an empty name afterwards already had it before. -/
theorem update_truthiness (s : DbState) (id : Nat) (metadata : JsVal) (now : Nat) :
    (handleUpdate s id (some "") JsVal.undef now =
      (s, UpdateResponse.badRequest "No fields to update")) ∧
    (metadata.truthy = false →
      handleUpdate s id none metadata now =
        (s, UpdateResponse.badRequest "No fields to update")) ∧
    (∀ (name : Option String), ∀ r' ∈ (handleUpdate s id name metadata now).1.rows,
      r'.name = "" → ∃ r ∈ s.rows, r'.id = r.id ∧ r.name = "") := by
  refine ⟨rfl, ?_, ?_⟩
  · intro hmd
    simp [handleUpdate, optStrTruthy, hmd]
  · intro name r' hr' hname
    by_cases hcond : (!(optStrTruthy name) && !(metadata.truthy)) = true
    · simp only [handleUpdate, hcond, if_true] at hr'
      exact ⟨r', hr', rfl, hname⟩
    · have hcond' : (!(optStrTruthy name) && !(metadata.truthy)) = false := by
        simpa using hcond
      rw [handleUpdate_fst s id name metadata now hcond'] at hr'
      obtain ⟨r, hr, hfr⟩ := List.mem_map.mp hr'
      by_cases hcase : (r.id == id) = true
      · simp only [hcase, if_true] at hfr
        cases hopt : optStrTruthy name with
        | true =>
            exfalso
            cases name with
            | none => simp [optStrTruthy] at hopt
            | some nm =>
                have hn : r'.name = nm := by
                  rw [← hfr, applyUpdateRow_name, if_pos hopt]; rfl
                have hne : ¬ nm = "" := by simpa [optStrTruthy] using hopt
                exact hne (by rw [← hn, hname])
        | false =>
            refine ⟨r, hr, ?_, ?_⟩
            · rw [← hfr, applyUpdateRow_id]
            · rw [← hname, ← hfr, applyUpdateRow_name, if_neg (by simp [hopt])]
      · simp only [hcase, Bool.false_eq_true, if_false] at hfr
        subst hfr
        exact ⟨r, hr, rfl, hname⟩

/-- Witness for C10: a body whose only `metadata` is the falsy value
`false` is rejected as if no field were supplied. -/
theorem update_truthiness_witness :
    handleUpdate { rows := [exRow], nextId := 2 } 1 none (JsVal.bool false) 5 =
      ({ rows := [exRow], nextId := 2 }, UpdateResponse.badRequest "No fields to update") :=
  (update_truthiness { rows := [exRow], nextId := 2 } 1 (JsVal.bool false) 5).2.1 rfl

/-- C6 counterexample: three files among which no name ends in `.dbf`
pass the upload validation — the handler proceeds through parsing all the
way to a successful insert instead of rejecting the request. -/
theorem upload_missing_dbf_not_rejected :
    (∀ f ∈ [exShp, exShx, exPrj], strEndsWith (strLower f.originalname) ".dbf" = false) ∧
    (handleUpload exDb0 [exShp, exShx, exPrj] (some [exFeat1]) exEnv true none 0).response =
      UploadResponse.created 1 "a.shp" := by
  decide

/-- C6 amended: the upload requires at least three files and, among them,
one whose name ends in `.shp`; fewer than three files, or no `.shp`
member, is rejected with a 400 validation error before any parsing or
persistence; the specific presence of the shape-index (`.shx`) and
attribute-table (`.dbf`) companions is not checked. -/
theorem upload_file_validation (s : DbState) (files : List UploadedFile)
    (parseResult : Option (List Feature)) (env : String → String)
    (connectOk : Bool) (failAt : Option Nat) (now : Nat) :
    (files.length < 3 →
      handleUpload s files parseResult env connectOk failAt now =
        { state := s, response := UploadResponse.badRequest "Please upload .shp, .shx, and .dbf files",
          filesCleaned := false, connAcquired := false, connReleased := false }) ∧
    (¬ files.length < 3 → findShp files = none →
      handleUpload s files parseResult env connectOk failAt now =
        { state := s, response := UploadResponse.badRequest "No .shp file found",
          filesCleaned := false, connAcquired := false, connReleased := false }) := by
  constructor
  · intro h
    simp [handleUpload, h]
  · intro h3 hf
    simp [handleUpload, h3, hf]

/-- Witness for C6 amended: a two-file request is rejected with the
missing-files validation error. -/
theorem upload_file_validation_witness :
    handleUpload exDb0 [exShp, exShx] (some [exFeat1]) exEnv true none 0 =
      { state := exDb0, response := UploadResponse.badRequest "Please upload .shp, .shx, and .dbf files",
        filesCleaned := false, connAcquired := false, connReleased := false } :=
  (upload_file_validation exDb0 [exShp, exShx] (some [exFeat1]) exEnv true none 0).1 (by decide)

/-- C7: the list endpoint returns the rows ordered by creation time
descending, taking at most `limit` items starting at offset
`(page - 1) * limit`, and reports a total-page count equal to the ceiling
of the row count divided by the limit (characterised by the two
inequalities); in particular with 25 rows, `page = 1` and `limit = 10` it
returns 10 items and `totalPages = 3`. -/
theorem list_pagination (rows : List Row) (page limit : Nat) (hl : 0 < limit) :
    (handleList rows page limit).1.length ≤ limit ∧
    (handleList rows page limit).1 =
      ((sortByCreatedDesc rows).drop ((page - 1) * limit)).take limit ∧
    List.Pairwise (fun a b : Row => b.created_at ≤ a.created_at) (handleList rows page limit).1 ∧
    rows.length ≤ (handleList rows page limit).2.totalPages * limit ∧
    (handleList rows page limit).2.totalPages * limit < rows.length + limit ∧
    (rows.length = 25 → page = 1 → limit = 10 →
      (handleList rows page limit).1.length = 10 ∧
      (handleList rows page limit).2.totalPages = 3) := by
  have hlen : (handleList rows page limit).1.length ≤ limit := by
    simp [handleList, List.length_take]
  have hsorted : List.Pairwise (fun a b : Row => b.created_at ≤ a.created_at)
      (handleList rows page limit).1 := by
    have htrans : ∀ a b c : Row, rowCreatedDesc a b = true → rowCreatedDesc b c = true →
        rowCreatedDesc a c = true := by
      intro a b c h1 h2
      simp only [rowCreatedDesc, decide_eq_true_eq] at *
      omega
    have htot : ∀ a b : Row, (rowCreatedDesc a b || rowCreatedDesc b a) = true := by
      intro a b
      simp only [rowCreatedDesc, Bool.or_eq_true, decide_eq_true_eq]
      omega
    have hms := List.sorted_mergeSort htrans htot rows
    have hsub : (handleList rows page limit).1.Sublist (rows.mergeSort rowCreatedDesc) := by
      refine List.Sublist.trans (List.take_sublist _ _) ?_
      exact List.drop_sublist _ _
    refine List.Pairwise.imp ?_ (List.Pairwise.sublist hsub hms)
    intro a b h
    simpa [rowCreatedDesc] using h
  have hdm := Nat.div_add_mod (rows.length + limit - 1) limit
  have hmod := Nat.mod_lt (rows.length + limit - 1) hl
  have htp : (handleList rows page limit).2.totalPages =
      (rows.length + limit - 1) / limit := rfl
  have hup : rows.length ≤ (handleList rows page limit).2.totalPages * limit ∧
      (handleList rows page limit).2.totalPages * limit < rows.length + limit := by
    rw [htp]
    rw [Nat.mul_comm]
    constructor <;> omega
  refine ⟨hlen, rfl, hsorted, hup.1, hup.2, ?_⟩
  intro h25 hp hlim
  subst hp hlim
  constructor
  · simp [handleList, List.length_take, List.length_drop, sortByCreatedDesc,
      List.length_mergeSort, h25]
  · rw [htp, h25]

/-- Witness for C7 at a concrete 25-row table. -/
theorem list_pagination_witness :
    (handleList exRows25 1 10).1.length = 10 ∧ (handleList exRows25 1 10).2.totalPages = 3 :=
  (list_pagination exRows25 1 10 (by decide)).2.2.2.2.2 (by decide) rfl rfl

/-! ## Export-script lemmas -/

/-- The needle sitting at the end of the haystack. -/
theorem strOccurs_append_self_right (x a : String) : strOccurs x (a ++ x) :=
  ⟨a, "", by simp⟩

/-- Extending the haystack on the right preserves occurrence. -/
theorem strOccurs_append_left (x a b : String) (h : strOccurs x a) : strOccurs x (a ++ b) := by
  obtain ⟨p, q, hpq⟩ := h
  exact ⟨p, q ++ b, by rw [hpq]; simp [String.append_assoc]⟩

/-- Trimming `"\n" ++ s ++ "\n"` where `s` starts and ends with a
non-whitespace character gives back `s`. -/
theorem strTrim_newline_wrap (s : String)
    (hh : ∃ ch, s.data.head? = some ch ∧ ch.isWhitespace = false)
    (hl : ∃ ch, s.data.reverse.head? = some ch ∧ ch.isWhitespace = false) :
    strTrim ("\n" ++ s ++ "\n") = s := by
  obtain ⟨c₁, hc₁, hw₁⟩ := hh
  obtain ⟨c₂, hc₂, hw₂⟩ := hl
  apply String.ext
  show ((("\n" ++ s ++ "\n").data.dropWhile Char.isWhitespace).reverse.dropWhile
      Char.isWhitespace).reverse = s.data
  have hdata : ("\n" ++ s ++ "\n").data = '\n' :: (s.data ++ ['\n']) := by
    rw [String.data_append, String.data_append]; rfl
  rw [hdata, List.dropWhile_cons]
  have hnl : Char.isWhitespace '\n' = true := by decide
  rw [hnl, if_pos rfl]
  have h1 : List.dropWhile Char.isWhitespace (s.data ++ ['\n']) = s.data ++ ['\n'] := by
    cases hsd : s.data with
    | nil => rw [hsd] at hc₁; cases hc₁
    | cons a as =>
        rw [hsd] at hc₁
        have ha : a = c₁ := by injection hc₁
        subst ha
        rw [List.cons_append, List.dropWhile_cons, hw₁, if_neg (by simp)]
  rw [h1, List.reverse_append]
  have h2 : (['\n'] : List Char).reverse = ['\n'] := rfl
  rw [h2, List.singleton_append, List.dropWhile_cons, hnl, if_pos rfl]
  have h3 : List.dropWhile Char.isWhitespace s.data.reverse = s.data.reverse := by
    cases hsr : s.data.reverse with
    | nil => rw [hsr] at hc₂; cases hc₂
    | cons b bs =>
        rw [hsr] at hc₂
        have hb : b = c₂ := by injection hc₂
        subst hb
        rw [List.dropWhile_cons, hw₂, if_neg (by simp)]
  rw [h3, List.reverse_reverse]

/-- The instantiated template body starts with the non-whitespace `v`. -/
theorem geeCodeCore_head (g c : String) (bs ps : List String) (t : String) :
    ∃ ch, (geeCodeCore g c bs ps t).data.head? = some ch ∧ ch.isWhitespace = false := by
  refine ⟨'v', ?_, by decide⟩
  have h1 : "var geometry = ee.Geometry(".data.head? = some 'v' := by decide
  unfold geeCodeCore
  repeat rw [String.data_append]
  repeat rw [List.head?_append]
  rw [h1]
  rfl

/-- The instantiated template body ends with the non-whitespace `;`. -/
theorem geeCodeCore_last (g c : String) (bs ps : List String) (t : String) :
    ∃ ch, (geeCodeCore g c bs ps t).data.reverse.head? = some ch ∧ ch.isWhitespace = false := by
  refine ⟨';', ?_, by decide⟩
  unfold geeCodeCore
  rw [String.data_append, List.reverse_append, List.head?_append]
  have h1 : (" Index\x27);".data.reverse).head? = some ';' := by decide
  rw [h1]
  rfl

/-- `.trim()` on the instantiated template gives exactly the body. -/
theorem strTrim_geeCode (g c : String) (bs ps : List String) (t : String) :
    strTrim (geeCode g c bs ps t) = geeCodeCore g c bs ps t :=
  strTrim_newline_wrap _ (geeCodeCore_head g c bs ps t) (geeCodeCore_last g c bs ps t)

theorem geeCodeCore_occurs_geometry (g c : String) (bs ps : List String) (t : String) :
    strOccurs g (geeCodeCore g c bs ps t) := by
  unfold geeCodeCore
  iterate 21 apply strOccurs_append_left
  exact strOccurs_append_self_right _ _

theorem geeCodeCore_occurs_collection (g c : String) (bs ps : List String) (t : String) :
    strOccurs c (geeCodeCore g c bs ps t) := by
  unfold geeCodeCore
  iterate 18 apply strOccurs_append_left
  exact strOccurs_append_self_right _ _

theorem geeCodeCore_occurs_bands (g c : String) (bs ps : List String) (t : String) :
    strOccurs (stringifyStrList bs) (geeCodeCore g c bs ps t) := by
  unfold geeCodeCore
  iterate 12 apply strOccurs_append_left
  exact strOccurs_append_self_right _ _

theorem geeCodeCore_occurs_palette (g c : String) (bs ps : List String) (t : String) :
    strOccurs (stringifyStrList ps) (geeCodeCore g c bs ps t) := by
  unfold geeCodeCore
  iterate 5 apply strOccurs_append_left
  exact strOccurs_append_self_right _ _

theorem geeCodeCore_occurs_type (g c : String) (bs ps : List String) (t : String) :
    strOccurs t (geeCodeCore g c bs ps t) := by
  unfold geeCodeCore
  iterate 1 apply strOccurs_append_left
  exact strOccurs_append_self_right _ _

/-- C8: the export endpoint rejects a falsy or unsupported type or a
falsy `shapefileId` with the 400 message; reports not-found when no row
has the id; and for a supported type and an existing row answers with
the upper-cased type, the trimmed script — which embeds the record's
geometry and the configured collection, stringified bands and palette,
and the type — the index formula, and the timestamp. -/
theorem gee_export_contract (s : DbState) (indexType : Option String)
    (sid : Option Nat) (nowIso : String) :
    ((optStrTruthy indexType &&
        (SUPPORTED_INDICES (strUpper (indexType.getD ""))).isSome &&
        natIdTruthy sid) = false →
      handleGee s indexType sid nowIso = GeeResponse.badRequest "Missing type or shapefileId") ∧
    (∀ (n : Nat) (cfg : IndexConfig), optStrTruthy indexType = true →
      SUPPORTED_INDICES (strUpper (indexType.getD "")) = some cfg →
      sid = some n → n ≠ 0 →
      s.rows.find? (fun r => r.id == n) = none →
      handleGee s indexType sid nowIso = GeeResponse.notFound "Shapefile not found") ∧
    (∀ (n : Nat) (cfg : IndexConfig) (r : Row), optStrTruthy indexType = true →
      SUPPORTED_INDICES (strUpper (indexType.getD "")) = some cfg →
      sid = some n → n ≠ 0 →
      s.rows.find? (fun r => r.id == n) = some r →
      handleGee s indexType sid nowIso =
        GeeResponse.ok (strUpper (indexType.getD ""))
          (geeCodeCore r.geom cfg.collection cfg.bands cfg.palette (strUpper (indexType.getD "")))
          cfg.formula nowIso ∧
      strOccurs r.geom
        (geeCodeCore r.geom cfg.collection cfg.bands cfg.palette (strUpper (indexType.getD ""))) ∧
      strOccurs cfg.collection
        (geeCodeCore r.geom cfg.collection cfg.bands cfg.palette (strUpper (indexType.getD ""))) ∧
      strOccurs (stringifyStrList cfg.bands)
        (geeCodeCore r.geom cfg.collection cfg.bands cfg.palette (strUpper (indexType.getD ""))) ∧
      strOccurs (stringifyStrList cfg.palette)
        (geeCodeCore r.geom cfg.collection cfg.bands cfg.palette (strUpper (indexType.getD ""))) ∧
      strOccurs (strUpper (indexType.getD ""))
        (geeCodeCore r.geom cfg.collection cfg.bands cfg.palette (strUpper (indexType.getD "")))) := by
  refine ⟨?_, ?_, ?_⟩
  · intro hv
    simp [handleGee, hv]
  · intro n cfg h1 h2 h3 h4 hfind
    subst h3
    have hnat : natIdTruthy (some n) = true := by simp [natIdTruthy, h4]
    simp [handleGee, h1, h2, hnat, hfind]
  · intro n cfg r h1 h2 h3 h4 hfind
    subst h3
    have hnat : natIdTruthy (some n) = true := by simp [natIdTruthy, h4]
    refine ⟨?_, geeCodeCore_occurs_geometry _ _ _ _ _, geeCodeCore_occurs_collection _ _ _ _ _,
      geeCodeCore_occurs_bands _ _ _ _ _, geeCodeCore_occurs_palette _ _ _ _ _,
      geeCodeCore_occurs_type _ _ _ _ _⟩
    simp [handleGee, h1, h2, hnat, hfind, strTrim_geeCode]

/-- Witness for C8: a stored geometry exported as lower-case `ndvi`. -/
theorem gee_export_contract_witness :
    handleGee { rows := [exGeoRow], nextId := 2 } (some "ndvi") (some 1)
        "2024-01-01T00:00:00.000Z" =
      GeeResponse.ok "NDVI"
        (geeCodeCore "GEO1" "COPERNICUS/S2_SR" ["B8", "B4"]
          ["#FFFFFF", "#CE7E45", "#DF923D", "#F1B555", "#FCD163", "#99B718", "#74A901",
           "#66A000", "#529400", "#3E8601", "#207401", "#056201", "#004C00", "#023B01",
           "#012E01", "#011D01", "#011301"] "NDVI")
        "(B8 - B4)/(B8 + B4)" "2024-01-01T00:00:00.000Z" := by
  have hup : strUpper ((some "ndvi").getD "") = "NDVI" := by decide
  have h := (gee_export_contract { rows := [exGeoRow], nextId := 2 } (some "ndvi") (some 1)
      "2024-01-01T00:00:00.000Z").2.2 1
      { collection := "COPERNICUS/S2_SR", bands := ["B8", "B4"],
        palette := ["#FFFFFF", "#CE7E45", "#DF923D", "#F1B555", "#FCD163", "#99B718", "#74A901",
                    "#66A000", "#529400", "#3E8601", "#207401", "#056201", "#004C00", "#023B01",
                    "#012E01", "#011D01", "#011301"],
        formula := "(B8 - B4)/(B8 + B4)" }
      exGeoRow (by decide) (by decide) rfl (by decide) (by decide)
  rw [← hup]
  exact h.1

/-- C9 counterexample: the `fetch-image` catch sends the original error
text verbatim to the caller in the `details` field of its 500 body; the
list endpoint's catch logs the error without any per-request correlation
identifier; and the export catch raises a `ReferenceError` on its
out-of-scope `transactionId` instead of logging or answering at all. -/
theorem internal_error_disclosure_counterexample :
    (fetchImageErrorBody "connect ECONNREFUSED 10.0.0.5:5432").details =
      some "connect ECONNREFUSED 10.0.0.5:5432" ∧
    (listErrorLog "db down").correlationId = none ∧
    geeCatchOutcome "db down" = CatchOutcome.referenceError "transactionId" := by
  decide

/-- C9 amended: with one exception per direction, internal errors yield
a 500 body carrying only a fixed generic message and a log line with the
original error text.  The upload, fetch-image and process-image catches
log with the per-request correlation identifier; the list, get-by-id,
geometry, update, delete, geojson and preview catches and the
unhandled-error fallback log without one.  The `fetch-image` catch
additionally discloses the original `error.message` verbatim as the
`details` field of its body.  The export catch sends nothing at all: its
`transactionId` is declared inside the `try` block, so the catch itself
raises a `ReferenceError` before logging or responding.  Every catch
that does respond logs exactly the original error text, and every body
sent is generic (no `details`) except the fetch-image one. -/
theorem internal_error_contract (tid errMsg : String) :
    uploadCatchOutcome tid errMsg =
      CatchOutcome.handled
        { correlationId := some tid, message := "Processing failed", errorText := errMsg }
        { error := "Failed to process shapefile", details := none } ∧
    listCatchOutcome errMsg =
      CatchOutcome.handled
        { correlationId := none, message := "Failed to fetch shapefiles", errorText := errMsg }
        { error := "Failed to fetch data", details := none } ∧
    getByIdCatchOutcome errMsg =
      CatchOutcome.handled
        { correlationId := none, message := "Failed to fetch shapefile", errorText := errMsg }
        { error := "Failed to fetch shapefile", details := none } ∧
    geometryCatchOutcome errMsg =
      CatchOutcome.handled
        { correlationId := none, message := "Failed to fetch shapefile geometry",
          errorText := errMsg }
        { error := "Failed to fetch geometry", details := none } ∧
    updateCatchOutcome errMsg =
      CatchOutcome.handled
        { correlationId := none, message := "Failed to update shapefile", errorText := errMsg }
        { error := "Failed to update shapefile", details := none } ∧
    deleteCatchOutcome errMsg =
      CatchOutcome.handled
        { correlationId := none, message := "Failed to delete shapefile", errorText := errMsg }
        { error := "Failed to delete shapefile", details := none } ∧
    geojsonCatchOutcome errMsg =
      CatchOutcome.handled
        { correlationId := none, message := "Failed to export GeoJSON", errorText := errMsg }
        { error := "Failed to export data", details := none } ∧
    fetchImageCatchOutcome tid errMsg =
      CatchOutcome.handled
        { correlationId := some tid, message := "Failed to fetch images", errorText := errMsg }
        { error := "Failed to fetch images", details := some errMsg } ∧
    processImageCatchOutcome tid errMsg =
      CatchOutcome.handled
        { correlationId := some tid, message := "Processing failed", errorText := errMsg }
        { error := "Image processing failed", details := none } ∧
    previewCatchOutcome errMsg =
      CatchOutcome.handled
        { correlationId := none, message := "Failed to fetch preview", errorText := errMsg }
        { error := "Failed to fetch preview", details := none } ∧
    geeCatchOutcome errMsg = CatchOutcome.referenceError "transactionId" ∧
    unhandledCatchOutcome errMsg =
      CatchOutcome.handled
        { correlationId := none, message := "Unhandled error", errorText := errMsg }
        { error := "Internal server error", details := none } ∧
    (∀ outcome ∈ allCatchOutcomes tid errMsg, ∀ lg bd,
      outcome = CatchOutcome.handled lg bd →
        lg.errorText = errMsg ∧ (bd.details = none ∨ bd = fetchImageErrorBody errMsg)) := by
  refine ⟨rfl, rfl, rfl, rfl, rfl, rfl, rfl, rfl, rfl, rfl, rfl, rfl, ?_⟩
  intro outcome houtcome lg bd heq
  simp only [allCatchOutcomes, List.mem_cons, List.not_mem_nil, or_false] at houtcome
  rcases houtcome with h | h | h | h | h | h | h | h | h | h | h | h <;> subst h <;>
    simp only [uploadCatchOutcome, listCatchOutcome, getByIdCatchOutcome, geometryCatchOutcome,
      updateCatchOutcome, deleteCatchOutcome, geojsonCatchOutcome, fetchImageCatchOutcome,
      processImageCatchOutcome, previewCatchOutcome, geeCatchOutcome, unhandledCatchOutcome,
      uploadErrorLog, uploadErrorBody, listErrorLog, listErrorBody, getByIdErrorBody,
      updateErrorLog, updateErrorBody, deleteErrorBody, fetchImageErrorLog, fetchImageErrorBody,
      processImageErrorBody, unhandledErrorBody, CatchOutcome.handled.injEq] at heq <;>
    obtain ⟨h1, h2⟩ := heq <;> subst h1 <;> subst h2 <;>
    exact ⟨rfl, by simp [fetchImageErrorBody]⟩

end SatGeovn
